import Mathlib

/-! Verification development for the event-dispatch and handle-ownership
subsystem of `rust-sciter`.

Shallow embedding of the core interop layer of the `rust-sciter` bindings:

* `src/video.rs` — `AssetPtr` reference-counted wrapper over foreign
  `iasset`-style COM pointers (`attach` / `adopt` / `Drop`);
* `src/dom.rs` — `Element` handle wrapper (`from` / `Clone` / `Drop`,
  `get_attribute`);
* `src/eventhandler.rs` — the three callback trampolines
  (`_event_handler_window_proc`, `_event_handler_proc`,
  `_event_handler_behavior_proc`) and the shared notification decoder
  `process_events`;
* `src/host.rs` — the behavior registry (`Host::register_behavior`) and the
  `SC_ATTACH_BEHAVIOR` branch of `_on_handle_notification`.

Foreign pointers are modelled as natural numbers with `0` as the null
pointer.  Calls that cross the FFI boundary are recorded in explicit
call-count state so that reference-counting discipline can be stated.
Rust panics (`assert!`, `RefCell` borrow failures, invalid `transmute`)
are modelled by `Option`/`Except`: `none` / `.error` means the Rust code
panicked or hit undefined behaviour rather than returning.
-/

namespace Sciter

/-- A raw foreign pointer (`LPVOID`, `HELEMENT`, `HWINDOW`, …); `0` is null. -/
abbrev Ptr := Nat

/-! Section: foreign call counters.

A fake foreign vtable recording how many times each reference-counting
entry point was invoked.  `add_ref`/`release` belong to the video
`iasset` vtable (`src/video.rs`), `Sciter_UseElement`/`Sciter_UnuseElement`
to the DOM API (`src/dom.rs`). -/

/-- Call counts of the foreign reference-counting entry points. -/
structure FfiCounts where
  addRefCalls : Nat
  releaseCalls : Nat
  useElementCalls : Nat
  unuseElementCalls : Nat
deriving Repr, DecidableEq

/-- The all-zero counter state. -/
def FfiCounts.zero : FfiCounts := ⟨0, 0, 0, 0⟩

/-! Section: `AssetPtr` (src/video.rs lines 371–400).

```rust
impl<T> Drop for AssetPtr<T> { fn drop(&mut self) { self.get().release(); } }
impl<T> AssetPtr<T> {
    fn attach(lp: *mut T) -> Self { assert!(!lp.is_null()); Self { ptr: lp } }
    pub fn adopt(lp: *mut T) -> Self { let mut me = Self::attach(lp); me.get().add_ref(); me }
}
```
-/

/-- The `AssetPtr<T>` wrapper: just the managed raw pointer. -/
structure AssetPtr where
  ptr : Ptr
deriving Repr, DecidableEq

/-- Rust `AssetPtr::attach`: wrap without incrementing; `assert!(!lp.is_null())`
panics (`none`) on a null pointer.  Makes no foreign call. -/
def AssetPtr.attach (lp : Ptr) (s : FfiCounts) : Option (AssetPtr × FfiCounts) :=
  if lp = 0 then none else some (⟨lp⟩, s)

/-- Rust `AssetPtr::adopt`: delegate to `attach`, then one `add_ref` call through
the foreign vtable. -/
def AssetPtr.adopt (lp : Ptr) (s : FfiCounts) : Option (AssetPtr × FfiCounts) :=
  match AssetPtr.attach lp s with
  | none => none
  | some (me, s) => some (me, { s with addRefCalls := s.addRefCalls + 1 })

/-- Rust `impl Drop for AssetPtr`: exactly one `release` call through the foreign
vtable. -/
def AssetPtr.dropIt (_a : AssetPtr) (s : FfiCounts) : FfiCounts :=
  { s with releaseCalls := s.releaseCalls + 1 }

/-! Section: the `Element` handle (src/dom.rs).

```rust
pub fn from(he: HELEMENT) -> Element { Element { he: Element::use_or(he) } }
fn use_or(he: HELEMENT) -> HELEMENT {
    let ok = (_API.Sciter_UseElement)(he);
    if ok == SCDOM_RESULT::OK { he } else { HELEMENT!() } }
impl Drop for Element { fn drop(&mut self) { (_API.Sciter_UnuseElement)(self.he); self.he = HELEMENT!(); } }
impl Clone for Element { fn clone(&self) -> Self { Element::from(self.he) } }
```

The engine's verdict on each `Sciter_UseElement` call is an oracle
parameter (`useOk`); either way exactly one foreign call is recorded. -/

/-- The `Element` wrapper: the held `HELEMENT` handle. -/
structure Element where
  he : Ptr
deriving Repr, DecidableEq

/-- Rust `Element::use_or`: one `Sciter_UseElement` call; keeps the handle on
`OK`, degrades to null otherwise. -/
def Element.use_or (he : Ptr) (useOk : Bool) (s : FfiCounts) : Ptr × FfiCounts :=
  ((if useOk then he else 0),
   { s with useElementCalls := s.useElementCalls + 1 })

/-- Rust `Element::from`: wrap via `use_or`. -/
def Element.fromHandle (he : Ptr) (useOk : Bool) (s : FfiCounts) : Element × FfiCounts :=
  let (h, s) := Element.use_or he useOk s
  (⟨h⟩, s)

/-- Rust `impl Clone for Element`: `Element::from(self.he)` — the increment goes through
the foreign `Sciter_UseElement` entry point, no application state is copied. -/
def Element.cloneIt (e : Element) (useOk : Bool) (s : FfiCounts) : Element × FfiCounts :=
  Element.fromHandle e.he useOk s

/-- Rust `impl Drop for Element`: exactly one `Sciter_UnuseElement` call, then the
handle is nulled. -/
def Element.dropIt (_e : Element) (s : FfiCounts) : FfiCounts :=
  { s with unuseElementCalls := s.unuseElementCalls + 1 }

/-! Section: operation sequences over the wrappers.

For the refcount-balance property we run arbitrary sequences of the wrapper
operations against the recording vtable. -/

/-- One `AssetPtr` lifecycle operation. -/
inductive AssetOp
  | attach (lp : Ptr)
  | adopt (lp : Ptr)
  | drop
deriving Repr, DecidableEq

/-- Run a sequence of `AssetPtr` operations, threading the foreign call
counters; `none` when any `attach`/`adopt` panics on a null pointer. -/
def runAssetOps : List AssetOp → FfiCounts → Option FfiCounts
  | [], s => some s
  | AssetOp.attach lp :: rest, s =>
      match AssetPtr.attach lp s with
      | none => none
      | some (_, s) => runAssetOps rest s
  | AssetOp.adopt lp :: rest, s =>
      match AssetPtr.adopt lp s with
      | none => none
      | some (_, s) => runAssetOps rest s
  | AssetOp.drop :: rest, s => runAssetOps rest (AssetPtr.dropIt ⟨1⟩ s)

/-- Number of `adopt` operations in a sequence. -/
def countAdopt (ops : List AssetOp) : Nat :=
  ops.countP (fun o => match o with | AssetOp.adopt _ => true | _ => false)

/-- Number of `drop` operations in a sequence. -/
def countAssetDrop (ops : List AssetOp) : Nat :=
  ops.countP (fun o => match o with | AssetOp.drop => true | _ => false)

/-- One `Element` lifecycle operation (`clone` carries the engine's verdict
for the embedded `Sciter_UseElement` call). -/
inductive ElemOp
  | clone (useOk : Bool)
  | drop
deriving Repr, DecidableEq

/-- Run a sequence of `Element` operations, threading the counters. -/
def runElemOps : List ElemOp → FfiCounts → FfiCounts
  | [], s => s
  | ElemOp.clone ok :: rest, s => runElemOps rest (Element.cloneIt ⟨1⟩ ok s).2
  | ElemOp.drop :: rest, s => runElemOps rest (Element.dropIt ⟨1⟩ s)

/-- Number of `clone` operations in a sequence. -/
def countClone (ops : List ElemOp) : Nat :=
  ops.countP (fun o => match o with | ElemOp.clone _ => true | _ => false)

/-- Number of `drop` operations in a sequence. -/
def countElemDrop (ops : List ElemOp) : Nat :=
  ops.countP (fun o => match o with | ElemOp.drop => true | _ => false)

/-! Section: `Element::get_attribute` (src/dom.rs lines 466–475).

```rust
pub fn get_attribute(&self, name: &str) -> Option<String> {
    let mut s = String::new();
    let ok = (_API.SciterGetAttributeByNameCB)(self.he, name.as_ptr(), store_wstr, ...);
    match ok {
        SCDOM_RESULT::OK => Some(s),
        SCDOM_RESULT::OK_NOT_HANDLED => None,
        _ => None,
    } }
```
-/

/-- The `SCDOM_RESULT` foreign result codes.  The `OK` and `OK_NOT_HANDLED`
variants are named in the `get_attribute` match in src/dom.rs; the remaining
variants (engine failure codes) are modelled from the engine's `sciter-x-dom.h`
enumeration, whose Rust mirror (`capi/scdom.rs`) is not under src/. -/
inductive SCDOM_RESULT
  | OK
  | OK_NOT_HANDLED
  | INVALID_HWND
  | INVALID_HANDLE
  | PASSIVE_HANDLE
  | INVALID_PARAMETER
  | OPERATION_FAILED
deriving Repr, DecidableEq

/-- Rust `Element::get_attribute`, abstracted over the engine's result code `ok`
and the string `s` the engine stored through the callback. -/
def Element.get_attribute (ok : SCDOM_RESULT) (s : String) : Option String :=
  match ok with
  | SCDOM_RESULT.OK => some s
  | SCDOM_RESULT.OK_NOT_HANDLED => none
  | _ => none


/-! Section: engine enumerations (src/capi/scbehavior.rs).

The Rust mirror of the engine's `sciter-x-behavior.h` enumerations
(`capi/scbehavior.rs`) is not under src/; the numeric discriminants below
are modelled from the spec's description of the engine's fixed numeric
enumerations and the engine header they mirror.  The control flow that
consumes them (src/eventhandler.rs, src/host.rs) is embedded from source. -/

/-- Modelled from the spec: `EVENT_GROUPS::HANDLE_INITIALIZATION`
discriminant (capi/scbehavior.rs is not under src/). -/
def HANDLE_INITIALIZATION : Nat := 0x0000

/-- Modelled from the spec: `EVENT_GROUPS::HANDLE_TIMER` discriminant. -/
def HANDLE_TIMER : Nat := 0x0010

/-- Modelled from the spec: `EVENT_GROUPS::HANDLE_BEHAVIOR_EVENT`
discriminant. -/
def HANDLE_BEHAVIOR_EVENT : Nat := 0x0100

/-- Modelled from the spec: `EVENT_GROUPS::HANDLE_SCRIPTING_METHOD_CALL`
discriminant. -/
def HANDLE_SCRIPTING_METHOD_CALL : Nat := 0x0400

/-- Modelled from the spec: `EVENT_GROUPS::SUBSCRIPTIONS_REQUEST`
discriminant. -/
def SUBSCRIPTIONS_REQUEST : Nat := 0xFFFFFFFF

/-- Modelled from the spec: `INITIALIZATION_EVENTS::BEHAVIOR_DETACH`
discriminant. -/
def BEHAVIOR_DETACH : Nat := 0

/-- Modelled from the spec: `INITIALIZATION_EVENTS::BEHAVIOR_ATTACH`
discriminant. -/
def BEHAVIOR_ATTACH : Nat := 1

/-- Modelled from the spec: `BEHAVIOR_EVENTS::EDIT_VALUE_CHANGING`
discriminant. -/
def EDIT_VALUE_CHANGING : Nat := 3

/-- Modelled from the spec: `BEHAVIOR_EVENTS::EDIT_VALUE_CHANGED`
discriminant. -/
def EDIT_VALUE_CHANGED : Nat := 4

/-- Modelled from the spec: `BEHAVIOR_EVENTS::DOCUMENT_COMPLETE`
discriminant. -/
def DOCUMENT_COMPLETE : Nat := 0x98

/-- Modelled from the spec: `BEHAVIOR_EVENTS::DOCUMENT_CLOSE`
discriminant. -/
def DOCUMENT_CLOSE : Nat := 0xC2

/-- Modelled from the spec: `BEHAVIOR_EVENTS::VIDEO_BIND_RQ`
discriminant. -/
def VIDEO_BIND_RQ : Nat := 0xD4

/-- Modelled from the spec: `PHASE_MASK::SINKING` discriminant (bit 15 of
the combined `cmd` field). -/
def PHASE_SINKING : Nat := 0x8000

/-! Section: the event model (src/dom.rs, `pub mod event`). -/

/-- Rust `enum EventReason` (src/dom.rs): typed interpretation of the raw
`reason` field of a behavior event.  `General`/`EditChanged` carry the
engine enum value truncated to 32 bits (`nm.reason as UINT`); `VideoBind`
carries the raw pointer (`nm.reason as LPVOID`). -/
inductive EventReason
  | General (r : Nat)
  | EditChanged (r : Nat)
  | VideoBind (p : Ptr)
deriving Repr, DecidableEq

/-- One invocation of a handler hook, as recorded in a dispatch trace. -/
inductive HookCall
  | getSubscription
  | attached (root : Ptr)
  | detached (root : Ptr)
  | documentComplete (root target : Ptr)
  | documentClose (root target : Ptr)
  | onEvent (root source target : Ptr) (code phase : Nat) (reason : EventReason)
  | onScriptCall (root : Ptr) (name : String)
  | onTimer (root : Ptr) (timerId : Nat)
deriving Repr, DecidableEq

/-- A user-supplied `EventHandler` implementation, represented by the
values its overridable hooks return (`get_subscription`, `on_event`,
`on_script_call`, `on_timer`); the `()`-returning hooks need no data. -/
structure Handler where
  subscriptionR : Option Nat
  onEventR : Ptr → Ptr → Ptr → Nat → Nat → EventReason → Bool
  onScriptR : Ptr → String → Option Nat
  onTimerR : Ptr → Nat → Bool

/-- The raw notification payload behind the untyped `params` pointer,
discriminated in the source by casting according to the group code.
`null` is a null pointer; `script` carries the call name and the current
content of the result slot. -/
inductive Payload
  | null
  | init (cmd : Nat)
  | subs (cell : Nat)
  | behavior (cmd : Nat) (source target : Ptr) (reason : Nat)
  | script (name : String) (result : Option Nat)
  | timer (timerId : Nat)
deriving Repr, DecidableEq

/-! Section: the notification decoder `process_events`
(src/eventhandler.rs lines 106–213). -/

/-- Event-code decoding: `nm.cmd & 0x0_0FFF` (src/eventhandler.rs line 148). -/
def decodeCode (cmd : Nat) : Nat := cmd &&& 0x0FFF

/-- Phase decoding: `nm.cmd & 0xFFFF_F000` (src/eventhandler.rs line 149). -/
def decodePhase (cmd : Nat) : Nat := cmd &&& 0xFFFFF000

/-- Reason decoding (src/eventhandler.rs lines 150–164): edit-change codes
read the reason as `EDIT_CHANGED_REASON`, the video-bind code as a raw
pointer, every other code as `CLICK_REASON`. -/
def decodeReason (code reason : Nat) : EventReason :=
  if code = EDIT_VALUE_CHANGED ∨ code = EDIT_VALUE_CHANGING then
    EventReason.EditChanged (reason % 2 ^ 32)
  else if code = VIDEO_BIND_RQ then
    EventReason.VideoBind reason
  else
    EventReason.General (reason % 2 ^ 32)

/-- Sinking-phase document-lifecycle hooks (src/eventhandler.rs lines
170–180): fired before the generic `on_event` call, only when the decoded
phase equals `PHASE_MASK::SINKING`. -/
def sinkingDocHooks (code phase : Nat) (he target : Ptr) : List HookCall :=
  if phase = PHASE_SINKING then
    if code = DOCUMENT_COMPLETE then [HookCall.documentComplete he target]
    else if code = DOCUMENT_CLOSE then [HookCall.documentClose he target]
    else []
  else []

/-- Rust `process_events` (src/eventhandler.rs lines 106–213): the shared
notification decoder.  Returns the `BOOL` result, the trace of handler
hooks invoked (in call order), and the possibly-updated payload; `none`
models a panic from `assert!(!params.is_null())` or undefined behaviour
from casting `params` to a type that does not match the group code. -/
def process_events (h : Handler) (he : Ptr) (evtg : Nat) (params : Payload) :
    Option (Bool × List HookCall × Payload) :=
  if evtg = SUBSCRIPTIONS_REQUEST then
    match params with
    | Payload.subs cell =>
        let handled := h.subscriptionR
        let cell' := match handled with
          | some needed => needed
          | none => cell
        some (handled.isSome, [HookCall.getSubscription], Payload.subs cell')
    | _ => none
  else if evtg = HANDLE_INITIALIZATION then
    match params with
    | Payload.init cmd =>
        if cmd = BEHAVIOR_DETACH then
          some (true, [HookCall.detached he], params)
        else if cmd = BEHAVIOR_ATTACH then
          some (true, [HookCall.attached he], params)
        else none
    | _ => none
  else if evtg = HANDLE_BEHAVIOR_EVENT then
    match params with
    | Payload.behavior cmd source target reason =>
        let code := decodeCode cmd
        let phase := decodePhase cmd
        let reason' := decodeReason code reason
        let doc := sinkingDocHooks code phase he target
        let handled := h.onEventR he source target code phase reason'
        some (handled,
              doc ++ [HookCall.onEvent he source target code phase reason'],
              params)
    | _ => none
  else if evtg = HANDLE_SCRIPTING_METHOD_CALL then
    match params with
    | Payload.script name res =>
        match h.onScriptR he name with
        | some v => some (true, [HookCall.onScriptCall he name],
                          Payload.script name (some v))
        | none => some (false, [HookCall.onScriptCall he name],
                        Payload.script name res)
    | _ => none
  else if evtg = HANDLE_TIMER then
    match params with
    | Payload.timer tid =>
        some (h.onTimerR he tid, [HookCall.onTimer he tid], params)
    | _ => none
  else
    some (false, [], params)

/-! Section: the three callback trampolines (src/eventhandler.rs lines
19–104).

Each trampoline's per-invocation effect is a step function returning the
`BOOL` result, the trace of handler hooks invoked, and whether this
invocation reclaimed (`Box::from_raw` + drop) the boxed context.  `none`
models a panic or undefined behaviour. -/

/-- Rust `is_detach_event` (src/eventhandler.rs lines 19–30); `none` models
the `assert!(!params.is_null())` panic and an ill-typed payload cast. -/
def is_detach_event (evtg : Nat) (params : Payload) : Option Bool :=
  if evtg = HANDLE_INITIALIZATION then
    match params with
    | Payload.init cmd => some (cmd = BEHAVIOR_DETACH)
    | _ => none
  else some false

/-- Rust `_event_handler_window_proc` (src/eventhandler.rs lines 32–68):
window-level attachment.  The context addresses a `WindowHandler { hwnd,
handler }` tuple; `hroot` is the lazily-resolved document root (null when
`Element::from_window` fails).  Initialization commands are handled
locally: attach fires `attached(hroot)`, detach fires `detached(hroot)`
and then reconstructs and drops the boxed tuple; everything else funnels
into `process_events`. -/
def windowProcStep (h : Handler) (hroot : Ptr) (evtg : Nat) (params : Payload) :
    Option (Bool × List HookCall × Bool) :=
  if evtg = HANDLE_INITIALIZATION then
    match params with
    | Payload.init cmd =>
        if cmd = BEHAVIOR_ATTACH then
          some (true, [HookCall.attached hroot], false)
        else if cmd = BEHAVIOR_DETACH then
          some (true, [HookCall.detached hroot], true)
        else none
    | _ => none
  else
    (process_events h hroot evtg params).map (fun r => (r.1, r.2.1, false))

/-- Rust `_event_handler_proc::<T>` (src/eventhandler.rs lines 88–104):
element-level attachment via the explicit API.  The context addresses the
monomorphized handler directly; on a detach event it fires `detached(he)`
and reconstructs and drops the box, otherwise it funnels into
`process_events` (which handles the attach command). -/
def elementProcStep (h : Handler) (he : Ptr) (evtg : Nat) (params : Payload) :
    Option (Bool × List HookCall × Bool) :=
  match is_detach_event evtg params with
  | none => none
  | some true => some (true, [HookCall.detached he], true)
  | some false =>
      (process_events h he evtg params).map (fun r => (r.1, r.2.1, false))

/-- Rust `_event_handler_behavior_proc` (src/eventhandler.rs lines 70–86):
behavior-name attachment.  The context addresses a type-erased
`BoxedHandler`; the body is identical to the element-level trampoline up
to the box reconstruction. -/
def behaviorProcStep (h : Handler) (he : Ptr) (evtg : Nat) (params : Payload) :
    Option (Bool × List HookCall × Bool) :=
  match is_detach_event evtg params with
  | none => none
  | some true => some (true, [HookCall.detached he], true)
  | some false =>
      (process_events h he evtg params).map (fun r => (r.1, r.2.1, false))

/-- Deliver a sequence of raw events through one trampoline.  The boolean
argument is whether the boxed context is still alive; delivering to a
reclaimed context is a use-after-free (`none`).  Returns the concatenated
hook trace and the number of box reclamations. -/
def runProc (step : Nat → Payload → Option (Bool × List HookCall × Bool)) :
    List (Nat × Payload) → Bool → Option (List HookCall × Nat)
  | [], _ => some ([], 0)
  | _ :: _, false => none
  | (evtg, p) :: rest, true =>
      match step evtg p with
      | none => none
      | some (_r, hooks, dropped) =>
          match runProc step rest (!dropped) with
          | none => none
          | some (tr, d) => some (hooks ++ tr, (if dropped then 1 else 0) + d)

/-- Count the `attached` hook invocations in a trace. -/
def countAttached (tr : List HookCall) : Nat :=
  tr.countP (fun c => match c with | HookCall.attached _ => true | _ => false)

/-- Count the `detached` hook invocations in a trace. -/
def countDetached (tr : List HookCall) : Nat :=
  tr.countP (fun c => match c with | HookCall.detached _ => true | _ => false)

/-! Section: the behavior registry (src/host.rs).

```rust
type BehaviorList = Vec<(String, Box<Fn() -> Box<EventHandler>>)>;
type SharedBehaviorList = Rc<RefCell<BehaviorList>>;

pub fn register_behavior<Factory>(&self, name: &str, factory: Factory) ... {
    let pair = (name.to_owned(), make);
    self.behaviors.borrow_mut().push(pair);
}
```

and, in `_on_handle_notification` (`SC_ATTACH_BEHAVIOR` branch):

```rust
let mut re = me.on_attach_behavior(scnm);
if !re {
    let name = u2s!(scnm.name);
    let behavior = callback.behaviors.borrow().iter()
        .find(|x| x.0 == name).map(|x| x.1());
    if let Some(behavior) = behavior { ... re = true; }
}
re as UINT
```

The temporary `Ref` guard produced by `.borrow()` lives until the end of
the whole `let behavior = ...;` statement, so the factory `x.1()` runs
while the shared `RefCell` is immutably borrowed.  The `RefCell` dynamic
borrow rules are modelled explicitly: `borrow_mut` on a cell with an
outstanding borrow is the `BorrowMutError` panic.

A produced boxed handler is represented by an opaque token (`Nat`), and
factories are defunctionalized: a factory either just returns its token,
or first re-enters `Host::register_behavior` on the same shared cell (the
re-entrancy scenario) and then returns its token. -/

/-- An opaque token standing for one `Box<EventHandler>` produced by a
factory. -/
abbrev HandlerBox := Nat

/-- A `RefCell` panic. -/
inductive CellPanic
  | borrowError
  | borrowMutError
deriving Repr, DecidableEq

/-- The dynamic borrow flag of the shared `RefCell<BehaviorList>`. -/
inductive BorrowFlag
  | free
  | shared (n : Nat)
  | exclusive
deriving Repr, DecidableEq

/-- A defunctionalized behavior factory closure: `pure b` returns the boxed
handler `b`; `registersThen nm sub b` first calls
`Host::register_behavior(nm, sub)` on the same shared registry and then
returns `b`. -/
inductive Factory
  | pure (b : HandlerBox)
  | registersThen (nm : String) (sub : Factory) (b : HandlerBox)
deriving Repr, DecidableEq

/-- The shared registry: the `Rc<RefCell<BehaviorList>>` contents together
with the cell's dynamic borrow state. -/
structure Registry where
  list : List (String × Factory)
  flag : BorrowFlag
deriving Repr, DecidableEq

/-- Rust `RefCell::borrow`: take a shared borrow, panicking
(`borrowError`) when the cell is mutably borrowed. -/
def Registry.borrow (r : Registry) : Except CellPanic Registry :=
  match r.flag with
  | BorrowFlag.free => Except.ok { r with flag := BorrowFlag.shared 1 }
  | BorrowFlag.shared n => Except.ok { r with flag := BorrowFlag.shared (n + 1) }
  | BorrowFlag.exclusive => Except.error CellPanic.borrowError

/-- Release one shared borrow (the `Ref` guard going out of scope). -/
def Registry.releaseShared (r : Registry) : Registry :=
  match r.flag with
  | BorrowFlag.shared (n + 1) =>
      { r with flag := if n = 0 then BorrowFlag.free else BorrowFlag.shared n }
  | _ => r

/-- Rust `RefCell::borrow_mut`: take the exclusive borrow, panicking
(`borrowMutError`) when any borrow is outstanding. -/
def Registry.borrow_mut (r : Registry) : Except CellPanic Registry :=
  match r.flag with
  | BorrowFlag.free => Except.ok { r with flag := BorrowFlag.exclusive }
  | _ => Except.error CellPanic.borrowMutError

/-- Rust `Host::register_behavior` (src/host.rs lines 192–199):
`self.behaviors.borrow_mut().push(pair)`; the `RefMut` guard is dropped at
the end of the statement. -/
def register_behavior (r : Registry) (name : String) (factory : Factory) :
    Except CellPanic Registry :=
  match r.borrow_mut with
  | Except.error e => Except.error e
  | Except.ok r' =>
      Except.ok { list := r'.list ++ [(name, factory)], flag := BorrowFlag.free }

/-- Run a factory closure against the shared registry (the closure may
re-enter `register_behavior`). -/
def runFactory : Factory → Registry → Except CellPanic (HandlerBox × Registry)
  | Factory.pure b, r => Except.ok (b, r)
  | Factory.registersThen nm sub b, r =>
      match register_behavior r nm sub with
      | Except.error e => Except.error e
      | Except.ok r' => Except.ok (b, r')

/-- The behavior-name lookup of `_on_handle_notification` (src/host.rs
lines 376–385): take the shared borrow, scan linearly with
`find(|x| x.0 == name)`, invoke the found entry's factory while the borrow
guard is still held, then drop the guard at the end of the statement. -/
def find_behavior (r : Registry) (name : String) :
    Except CellPanic (Option HandlerBox × Registry) :=
  match r.borrow with
  | Except.error e => Except.error e
  | Except.ok rb =>
      match rb.list.find? (fun x => x.1 = name) with
      | some entry =>
          match runFactory entry.2 rb with
          | Except.error e => Except.error e
          | Except.ok (b, r2) => Except.ok (some b, r2.releaseShared)
      | none => Except.ok (none, rb.releaseShared)

/-- The `SC_ATTACH_BEHAVIOR` branch of `_on_handle_notification`
(src/host.rs lines 371–393): when the host's `on_attach_behavior` override
returns `re = true` the registry is not consulted; otherwise the lookup
runs, a hit installs the produced box and reports `re = true`, and a miss
leaves `re = false`.  Either way the branch returns `re as UINT`
normally — a miss is not an error. -/
def attach_behavior_result (overrideRe : Bool) (r : Registry) (name : String) :
    Except CellPanic (Bool × Option HandlerBox × Registry) :=
  if overrideRe then Except.ok (true, none, r)
  else
    match find_behavior r name with
    | Except.error e => Except.error e
    | Except.ok (some b, r') => Except.ok (true, some b, r')
    | Except.ok (none, r') => Except.ok (false, none, r')

/-! Section: helper lemmas. -/

/-- Masking with `0x0FFF` keeps exactly the low 12 bits. -/
theorem and_low_mask (n : Nat) : n &&& 0x0FFF = n % 2 ^ 12 :=
  Nat.and_pow_two_sub_one_eq_mod n 12

/-- Masking a 32-bit value with `0xFFFF_F000` keeps exactly the bits above
the low 12. -/
theorem and_high_mask (n : Nat) (h : n < 2 ^ 32) :
    n &&& 0xFFFFF000 = 2 ^ 12 * (n / 2 ^ 12) := by
  have hmask : (0xFFFFF000 : Nat) = (2 ^ 20 - 1) <<< 12 := by decide
  have hrhs : 2 ^ 12 * (n / 2 ^ 12) = (n >>> 12) <<< 12 := by
    simp [Nat.shiftLeft_eq, Nat.shiftRight_eq_div_pow]
    ring
  rw [hmask, hrhs]
  apply Nat.eq_of_testBit_eq
  intro i
  rw [Nat.testBit_and, Nat.testBit_shiftLeft, Nat.testBit_shiftLeft,
      Nat.testBit_shiftRight, Nat.testBit_two_pow_sub_one]
  rcases lt_or_ge i 12 with hi | hi
  · simp [Nat.not_le.mpr hi]
  · rcases lt_or_ge i 32 with hi32 | hi32
    · have heq : 12 + (i - 12) = i := by omega
      simp [hi, heq, Nat.lt_of_lt_of_le]
      intro _
      omega
    · have hbit : n.testBit i = false := by
        apply Nat.testBit_eq_false_of_lt
        calc n < 2 ^ 32 := h
        _ ≤ 2 ^ i := Nat.pow_le_pow_right (by norm_num) hi32
      have heq : 12 + (i - 12) = i := by omega
      simp [hbit, heq]

/-! Section: claim theorems. -/

/-- C9: `AssetPtr::attach(ptr)` — and therefore `AssetPtr::adopt(ptr)`,
which delegates to it — fails by panicking when `ptr` is null, so every
successfully constructed `AssetPtr` wraps a non-null pointer. -/
theorem assetptr_null_rejected :
    (∀ s, AssetPtr.attach 0 s = none) ∧
    (∀ s, AssetPtr.adopt 0 s = none) ∧
    (∀ lp s a s', AssetPtr.attach lp s = some (a, s') → a.ptr = lp ∧ a.ptr ≠ 0) ∧
    (∀ lp s a s', AssetPtr.adopt lp s = some (a, s') → a.ptr = lp ∧ a.ptr ≠ 0) := by
  refine ⟨fun s => rfl, fun s => rfl, ?_, ?_⟩
  · intro lp s a s' h
    by_cases hlp : lp = 0
    · subst hlp; simp [AssetPtr.attach] at h
    · simp [AssetPtr.attach, hlp] at h
      obtain ⟨ha, _⟩ := h
      exact ⟨by rw [← ha], by rw [← ha]; exact hlp⟩
  · intro lp s a s' h
    by_cases hlp : lp = 0
    · subst hlp; simp [AssetPtr.adopt, AssetPtr.attach] at h
    · simp [AssetPtr.adopt, AssetPtr.attach, hlp] at h
      obtain ⟨ha, _⟩ := h
      exact ⟨by rw [← ha], by rw [← ha]; exact hlp⟩

/-- Witness for C9: at the concrete null pointer and at the concrete
pointer `5`. -/
theorem assetptr_null_rejected_witness :
    AssetPtr.adopt 0 FfiCounts.zero = none ∧
    ((⟨5⟩ : AssetPtr).ptr = 5 ∧ (⟨5⟩ : AssetPtr).ptr ≠ 0) :=
  ⟨assetptr_null_rejected.2.1 FfiCounts.zero,
   assetptr_null_rejected.2.2.2 5 FfiCounts.zero ⟨5⟩ ⟨1, 0, 0, 0⟩ (by decide)⟩

/-- C10: `Element::get_attribute` returns `none` both for the engine's
`OK_NOT_HANDLED` (attribute absent) result and for every other non-`OK`
foreign result code, and never propagates a foreign result code: genuine
foreign-call failures collapse into the same absent result. -/
theorem get_attribute_collapses_failures :
    (∀ s, Element.get_attribute SCDOM_RESULT.OK s = some s) ∧
    (∀ ok s, ok ≠ SCDOM_RESULT.OK → Element.get_attribute ok s = none) := by
  refine ⟨fun s => rfl, ?_⟩
  intro ok s h
  cases ok <;> first | rfl | exact absurd rfl h

/-- Witness for C10: the expected "not found" code and a genuine failure
code both yield `none` on a concrete string. -/
theorem get_attribute_collapses_failures_witness :
    Element.get_attribute SCDOM_RESULT.OK_NOT_HANDLED "id" = none ∧
    Element.get_attribute SCDOM_RESULT.OPERATION_FAILED "id" = none :=
  ⟨get_attribute_collapses_failures.2 SCDOM_RESULT.OK_NOT_HANDLED "id" (by decide),
   get_attribute_collapses_failures.2 SCDOM_RESULT.OPERATION_FAILED "id" (by decide)⟩

/-- C2: over every sequence of wrapper operations the net foreign
reference-count delta is (+1 per `adopt`/`clone`, +0 per `attach`) minus
(1 per drop): a completed `AssetPtr` sequence makes exactly one `add_ref`
call per `adopt` and one `release` call per drop and never touches the
DOM counters; an `Element` sequence makes exactly one `Sciter_UseElement`
call per `clone` (the foreign add-ref entry point — `Element::clone` goes
through `Element::from`, copying no application state) and one
`Sciter_UnuseElement` call per drop and never touches the video counters;
and per operation: `adopt` is exactly one `add_ref`, `attach` leaves the
counters untouched, each drop is exactly one `release`/`Sciter_UnuseElement`. -/
theorem refcount_balance :
    (∀ ops s s', runAssetOps ops s = some s' →
        s'.addRefCalls = s.addRefCalls + countAdopt ops ∧
        s'.releaseCalls = s.releaseCalls + countAssetDrop ops ∧
        s'.useElementCalls = s.useElementCalls ∧
        s'.unuseElementCalls = s.unuseElementCalls) ∧
    (∀ ops s,
        (runElemOps ops s).useElementCalls = s.useElementCalls + countClone ops ∧
        (runElemOps ops s).unuseElementCalls = s.unuseElementCalls + countElemDrop ops ∧
        (runElemOps ops s).addRefCalls = s.addRefCalls ∧
        (runElemOps ops s).releaseCalls = s.releaseCalls) ∧
    (∀ lp s a s', AssetPtr.adopt lp s = some (a, s') →
        s' = { s with addRefCalls := s.addRefCalls + 1 }) ∧
    (∀ lp s a s', AssetPtr.attach lp s = some (a, s') → s' = s) ∧
    (∀ e ok s, (Element.cloneIt e ok s).2 =
        { s with useElementCalls := s.useElementCalls + 1 }) ∧
    (∀ a s, AssetPtr.dropIt a s = { s with releaseCalls := s.releaseCalls + 1 }) ∧
    (∀ e s, Element.dropIt e s = { s with unuseElementCalls := s.unuseElementCalls + 1 }) := by
  refine ⟨?_, ?_, ?_, ?_, ?_, ?_, ?_⟩
  · intro ops
    induction ops with
    | nil =>
        intro s s' h
        simp [runAssetOps] at h
        subst h
        simp [countAdopt, countAssetDrop]
    | cons op rest ih =>
        intro s s' h
        cases op with
        | attach lp =>
            by_cases hlp : lp = 0
            · subst hlp; simp [runAssetOps, AssetPtr.attach] at h
            · simp [runAssetOps, AssetPtr.attach, hlp] at h
              have := ih _ _ h
              simp [countAdopt, countAssetDrop, List.countP_cons] at *
              omega
        | adopt lp =>
            by_cases hlp : lp = 0
            · subst hlp; simp [runAssetOps, AssetPtr.adopt, AssetPtr.attach] at h
            · simp [runAssetOps, AssetPtr.adopt, AssetPtr.attach, hlp] at h
              have := ih _ _ h
              simp [countAdopt, countAssetDrop, List.countP_cons] at *
              omega
        | drop =>
            simp [runAssetOps, AssetPtr.dropIt] at h
            have := ih _ _ h
            simp [countAdopt, countAssetDrop, List.countP_cons] at *
            omega
  · intro ops
    induction ops with
    | nil =>
        intro s
        simp [runElemOps, countClone, countElemDrop]
    | cons op rest ih =>
        intro s
        cases op with
        | clone ok =>
            have := ih (Element.cloneIt ⟨1⟩ ok s).2
            simp [runElemOps, Element.cloneIt, Element.fromHandle, Element.use_or,
                  countClone, countElemDrop, List.countP_cons] at *
            omega
        | drop =>
            have := ih (Element.dropIt ⟨1⟩ s)
            simp [runElemOps, Element.dropIt,
                  countClone, countElemDrop, List.countP_cons] at *
            omega
  · intro lp s a s' h
    by_cases hlp : lp = 0
    · subst hlp; simp [AssetPtr.adopt, AssetPtr.attach] at h
    · simp [AssetPtr.adopt, AssetPtr.attach, hlp] at h
      exact h.2.symm
  · intro lp s a s' h
    by_cases hlp : lp = 0
    · subst hlp; simp [AssetPtr.attach] at h
    · simp [AssetPtr.attach, hlp] at h
      exact h.2.symm
  · intro e ok s; rfl
  · intro a s; rfl
  · intro e s; rfl

/-- Witness for C2: a concrete mixed sequence — two adopts, one attach and
one drop leave the asset counters at `(2, 1)`; two clones and one drop
leave the DOM counters at `(2, 1)`; and the per-operation conjuncts at the
concrete pointer `3`. -/
theorem refcount_balance_witness :
    runAssetOps [AssetOp.adopt 3, AssetOp.attach 4, AssetOp.drop, AssetOp.adopt 5]
        FfiCounts.zero = some ⟨2, 1, 0, 0⟩ ∧
    runElemOps [ElemOp.clone true, ElemOp.drop, ElemOp.clone false]
        FfiCounts.zero = ⟨0, 0, 2, 1⟩ ∧
    (⟨2, 1, 0, 0⟩ : FfiCounts).addRefCalls = (0 : Nat) + countAdopt
        [AssetOp.adopt 3, AssetOp.attach 4, AssetOp.drop, AssetOp.adopt 5] := by
  have h1 : runAssetOps [AssetOp.adopt 3, AssetOp.attach 4, AssetOp.drop, AssetOp.adopt 5]
      FfiCounts.zero = some ⟨2, 1, 0, 0⟩ := by decide
  have h2 := (refcount_balance.1
      [AssetOp.adopt 3, AssetOp.attach 4, AssetOp.drop, AssetOp.adopt 5]
      FfiCounts.zero ⟨2, 1, 0, 0⟩ h1).1
  exact ⟨h1, by decide, h2⟩

/-- A concrete handler used to instantiate witnesses: returns `sub` from
`get_subscription`, `ev` from `on_event`, `scr` from `on_script_call` and
`tmr` from `on_timer`. -/
def mkHandler (sub : Option Nat) (ev : Bool) (scr : Option Nat) (tmr : Bool) : Handler :=
  { subscriptionR := sub
    onEventR := fun _ _ _ _ _ _ => ev
    onScriptR := fun _ _ => scr
    onTimerR := fun _ _ => tmr }

/-- C8: for a subscription-query notification the trampoline result is
`true` iff `get_subscription` returns `some mask`, in which case exactly
that mask is written into the payload cell; on `none` the payload is left
unchanged and the result is `false`. -/
theorem subscription_query_contract :
    ∀ (h : Handler) (he : Ptr) (cell : Nat),
      (∀ m, h.subscriptionR = some m →
          process_events h he SUBSCRIPTIONS_REQUEST (Payload.subs cell) =
            some (true, [HookCall.getSubscription], Payload.subs m)) ∧
      (h.subscriptionR = none →
          process_events h he SUBSCRIPTIONS_REQUEST (Payload.subs cell) =
            some (false, [HookCall.getSubscription], Payload.subs cell)) ∧
      (∀ res tr p',
          process_events h he SUBSCRIPTIONS_REQUEST (Payload.subs cell) =
            some (res, tr, p') →
          (res = true ↔ h.subscriptionR.isSome = true)) ∧
      (windowProcStep h he SUBSCRIPTIONS_REQUEST (Payload.subs cell) =
          (process_events h he SUBSCRIPTIONS_REQUEST (Payload.subs cell)).map
            (fun r => (r.1, r.2.1, false)) ∧
       elementProcStep h he SUBSCRIPTIONS_REQUEST (Payload.subs cell) =
          (process_events h he SUBSCRIPTIONS_REQUEST (Payload.subs cell)).map
            (fun r => (r.1, r.2.1, false)) ∧
       behaviorProcStep h he SUBSCRIPTIONS_REQUEST (Payload.subs cell) =
          (process_events h he SUBSCRIPTIONS_REQUEST (Payload.subs cell)).map
            (fun r => (r.1, r.2.1, false))) := by
  intro h he cell
  refine ⟨?_, ?_, ?_, rfl, rfl, rfl⟩
  · intro m hm
    simp [process_events, hm]
  · intro hm
    simp [process_events, hm]
  · intro res tr p' heq
    simp [process_events] at heq
    obtain ⟨hres, _⟩ := heq
    subst hres
    constructor
    · intro hs; exact hs
    · intro hs; exact hs

/-- Witness for C8: a handler reporting mask `6` gets it written and the
result `true`; a handler reporting nothing leaves the cell at `9` with
result `false`. -/
theorem subscription_query_contract_witness :
    process_events (mkHandler (some 6) false none false) 1 SUBSCRIPTIONS_REQUEST
        (Payload.subs 9) =
      some (true, [HookCall.getSubscription], Payload.subs 6) ∧
    process_events (mkHandler none false none false) 1 SUBSCRIPTIONS_REQUEST
        (Payload.subs 9) =
      some (false, [HookCall.getSubscription], Payload.subs 9) ∧
    (true = true ↔ (mkHandler (some 6) false none false).subscriptionR.isSome = true) :=
  ⟨(subscription_query_contract (mkHandler (some 6) false none false) 1 9).1 6 rfl,
   (subscription_query_contract (mkHandler none false none false) 1 9).2.1 rfl,
   (subscription_query_contract (mkHandler (some 6) false none false) 1 9).2.2.1
      true [HookCall.getSubscription] (Payload.subs 6)
      ((subscription_query_contract (mkHandler (some 6) false none false) 1 9).1 6 rfl)⟩

/-- C4: for every behavior-event notification the decoder computes the
event code as exactly the low 12 bits of the combined 32-bit `cmd` field
and the phase as exactly the remaining high bits of the same field — the
two projections partition `cmd` with no other packing — and
`process_events` dispatches `on_event` with exactly those projections. -/
theorem behavior_event_bit_layout :
    ∀ cmd : Nat, cmd < 2 ^ 32 →
      decodeCode cmd = cmd % 2 ^ 12 ∧
      decodePhase cmd = 2 ^ 12 * (cmd / 2 ^ 12) ∧
      decodeCode cmd + decodePhase cmd = cmd ∧
      (∀ (h : Handler) (he source target : Ptr) (reason : Nat),
        process_events h he HANDLE_BEHAVIOR_EVENT
            (Payload.behavior cmd source target reason) =
          some (h.onEventR he source target (decodeCode cmd) (decodePhase cmd)
                  (decodeReason (decodeCode cmd) reason),
                sinkingDocHooks (decodeCode cmd) (decodePhase cmd) he target ++
                  [HookCall.onEvent he source target (decodeCode cmd)
                     (decodePhase cmd) (decodeReason (decodeCode cmd) reason)],
                Payload.behavior cmd source target reason)) := by
  intro cmd hcmd
  have hlow : decodeCode cmd = cmd % 2 ^ 12 := and_low_mask cmd
  have hhigh : decodePhase cmd = 2 ^ 12 * (cmd / 2 ^ 12) := and_high_mask cmd hcmd
  refine ⟨hlow, hhigh, ?_, ?_⟩
  · rw [hlow, hhigh]
    omega
  · intro h he source target reason
    rfl

/-- Witness for C4: at the concrete field `0x8098` the code is `0x98`,
the phase is `0x8000`, they recombine to `0x8098`, and dispatch carries
them to `on_event`. -/
theorem behavior_event_bit_layout_witness :
    decodeCode 0x8098 = 0x8098 % 2 ^ 12 ∧
    decodePhase 0x8098 = 2 ^ 12 * (0x8098 / 2 ^ 12) ∧
    decodeCode 0x8098 + decodePhase 0x8098 = 0x8098 ∧
    process_events (mkHandler none true none false) 1 HANDLE_BEHAVIOR_EVENT
        (Payload.behavior 0x8098 2 3 0) =
      some (true,
            sinkingDocHooks (decodeCode 0x8098) (decodePhase 0x8098) 1 3 ++
              [HookCall.onEvent 1 2 3 (decodeCode 0x8098) (decodePhase 0x8098)
                 (decodeReason (decodeCode 0x8098) 0)],
            Payload.behavior 0x8098 2 3 0) := by
  obtain ⟨h1, h2, h3, h4⟩ := behavior_event_bit_layout 0x8098 (by norm_num)
  exact ⟨h1, h2, h3, h4 (mkHandler none true none false) 1 2 3 0⟩

/-- C7: the typed interpretation of the `reason` field is determined by
the decoded event code — the two edit-change codes decode it as the
edit-changed-reason enum, the video-bind code decodes it as an opaque
pointer, and every other code decodes it as the general UI-action enum —
and `process_events` hands `on_event` exactly that interpretation of the
raw field. -/
theorem reason_interpretation :
    ∀ code reason : Nat,
      ((code = EDIT_VALUE_CHANGED ∨ code = EDIT_VALUE_CHANGING) →
          decodeReason code reason = EventReason.EditChanged (reason % 2 ^ 32)) ∧
      (code = VIDEO_BIND_RQ →
          decodeReason code reason = EventReason.VideoBind reason) ∧
      (code ≠ EDIT_VALUE_CHANGED → code ≠ EDIT_VALUE_CHANGING → code ≠ VIDEO_BIND_RQ →
          decodeReason code reason = EventReason.General (reason % 2 ^ 32)) ∧
      (∀ (h : Handler) (he source target : Ptr) (cmd : Nat),
          ∃ handled doc,
            process_events h he HANDLE_BEHAVIOR_EVENT
                (Payload.behavior cmd source target reason) =
              some (handled,
                    doc ++ [HookCall.onEvent he source target (decodeCode cmd)
                              (decodePhase cmd)
                              (decodeReason (decodeCode cmd) reason)],
                    Payload.behavior cmd source target reason)) := by
  intro code reason
  refine ⟨?_, ?_, ?_, ?_⟩
  · intro hc
    rcases hc with hc | hc <;> simp [decodeReason, hc]
  · intro hc
    have h1 : code ≠ EDIT_VALUE_CHANGED := by
      subst hc; decide
    have h2 : code ≠ EDIT_VALUE_CHANGING := by
      subst hc; decide
    simp [decodeReason, h1, h2, hc]
    decide
  · intro h1 h2 h3
    simp [decodeReason, h1, h2, h3]
  · intro h he source target cmd
    exact ⟨_, _, rfl⟩

/-- Witness for C7: concrete decodes at the edit-changed code `4`, the
video-bind code `0xD4` and the generic code `0x16`, plus the dispatch
conjunct at a concrete notification. -/
theorem reason_interpretation_witness :
    decodeReason 4 7 = EventReason.EditChanged (7 % 2 ^ 32) ∧
    decodeReason 0xD4 7 = EventReason.VideoBind 7 ∧
    decodeReason 0x16 7 = EventReason.General (7 % 2 ^ 32) ∧
    ∃ handled doc,
      process_events (mkHandler none false none false) 1 HANDLE_BEHAVIOR_EVENT
          (Payload.behavior 0x16 2 3 7) =
        some (handled,
              doc ++ [HookCall.onEvent 1 2 3 (decodeCode 0x16) (decodePhase 0x16)
                        (decodeReason (decodeCode 0x16) 7)],
              Payload.behavior 0x16 2 3 7) :=
  ⟨(reason_interpretation 4 7).1 (Or.inl rfl),
   (reason_interpretation 0xD4 7).2.1 rfl,
   (reason_interpretation 0x16 7).2.2.1 (by decide) (by decide) (by decide),
   (reason_interpretation 0x16 7).2.2.2 (mkHandler none false none false) 1 2 3 0x16⟩

/-- C5: for a behavior-event notification whose decoded code is a
document-lifecycle code delivered in the sinking phase, the dedicated
hook fires first and the generic `on_event` hook fires second for the
same notification; in any non-sinking phase the dedicated hooks are not
invoked; and in all cases the trampoline's handled flag equals the
boolean returned by `on_event`. -/
theorem sinking_document_hooks :
    ∀ (h : Handler) (he source target : Ptr) (cmd reason : Nat),
      (decodePhase cmd = PHASE_SINKING → decodeCode cmd = DOCUMENT_COMPLETE →
          process_events h he HANDLE_BEHAVIOR_EVENT
              (Payload.behavior cmd source target reason) =
            some (h.onEventR he source target (decodeCode cmd) (decodePhase cmd)
                    (decodeReason (decodeCode cmd) reason),
                  [HookCall.documentComplete he target,
                   HookCall.onEvent he source target (decodeCode cmd) (decodePhase cmd)
                     (decodeReason (decodeCode cmd) reason)],
                  Payload.behavior cmd source target reason)) ∧
      (decodePhase cmd = PHASE_SINKING → decodeCode cmd = DOCUMENT_CLOSE →
          process_events h he HANDLE_BEHAVIOR_EVENT
              (Payload.behavior cmd source target reason) =
            some (h.onEventR he source target (decodeCode cmd) (decodePhase cmd)
                    (decodeReason (decodeCode cmd) reason),
                  [HookCall.documentClose he target,
                   HookCall.onEvent he source target (decodeCode cmd) (decodePhase cmd)
                     (decodeReason (decodeCode cmd) reason)],
                  Payload.behavior cmd source target reason)) ∧
      (decodePhase cmd ≠ PHASE_SINKING →
          process_events h he HANDLE_BEHAVIOR_EVENT
              (Payload.behavior cmd source target reason) =
            some (h.onEventR he source target (decodeCode cmd) (decodePhase cmd)
                    (decodeReason (decodeCode cmd) reason),
                  [HookCall.onEvent he source target (decodeCode cmd) (decodePhase cmd)
                     (decodeReason (decodeCode cmd) reason)],
                  Payload.behavior cmd source target reason)) ∧
      (∀ res tr p',
          process_events h he HANDLE_BEHAVIOR_EVENT
              (Payload.behavior cmd source target reason) = some (res, tr, p') →
          res = h.onEventR he source target (decodeCode cmd) (decodePhase cmd)
                  (decodeReason (decodeCode cmd) reason)) := by
  intro h he source target cmd reason
  refine ⟨?_, ?_, ?_, ?_⟩
  · intro hp hc
    simp [process_events, sinkingDocHooks, hp, hc, HANDLE_BEHAVIOR_EVENT,
          SUBSCRIPTIONS_REQUEST, HANDLE_INITIALIZATION]
  · intro hp hc
    have hne : DOCUMENT_CLOSE ≠ DOCUMENT_COMPLETE := by decide
    simp [process_events, sinkingDocHooks, hp, hc, hne, HANDLE_BEHAVIOR_EVENT,
          SUBSCRIPTIONS_REQUEST, HANDLE_INITIALIZATION]
  · intro hp
    simp [process_events, sinkingDocHooks, hp, HANDLE_BEHAVIOR_EVENT,
          SUBSCRIPTIONS_REQUEST, HANDLE_INITIALIZATION]
  · intro res tr p' heq
    simp [process_events, HANDLE_BEHAVIOR_EVENT, SUBSCRIPTIONS_REQUEST,
          HANDLE_INITIALIZATION] at heq
    exact heq.1.symm

/-- Witness for C5: a `DOCUMENT_COMPLETE` code (`0x98`) in the sinking
phase (`0x8000`) fires `document_complete` then `on_event`; the same code
in the bubbling phase (`0`) fires only `on_event`; and the handled flag is
the handler's `on_event` result (`true`). -/
theorem sinking_document_hooks_witness :
    process_events (mkHandler none true none false) 1 HANDLE_BEHAVIOR_EVENT
        (Payload.behavior 0x8098 2 3 0) =
      some (true,
            [HookCall.documentComplete 1 3,
             HookCall.onEvent 1 2 3 (decodeCode 0x8098) (decodePhase 0x8098)
               (decodeReason (decodeCode 0x8098) 0)],
            Payload.behavior 0x8098 2 3 0) ∧
    process_events (mkHandler none true none false) 1 HANDLE_BEHAVIOR_EVENT
        (Payload.behavior 0x98 2 3 0) =
      some (true,
            [HookCall.onEvent 1 2 3 (decodeCode 0x98) (decodePhase 0x98)
               (decodeReason (decodeCode 0x98) 0)],
            Payload.behavior 0x98 2 3 0) ∧
    true = (mkHandler none true none false).onEventR 1 2 3 (decodeCode 0x8098)
             (decodePhase 0x8098) (decodeReason (decodeCode 0x8098) 0) := by
  have h1 := (sinking_document_hooks (mkHandler none true none false) 1 2 3 0x8098 0).1
      (by decide) (by decide)
  have h2 := (sinking_document_hooks (mkHandler none true none false) 1 2 3 0x98 0).2.2.1
      (by decide)
  have h3 := (sinking_document_hooks (mkHandler none true none false) 1 2 3 0x8098 0).2.2.2
      true
      [HookCall.documentComplete 1 3,
       HookCall.onEvent 1 2 3 (decodeCode 0x8098) (decodePhase 0x8098)
         (decodeReason (decodeCode 0x8098) 0)]
      (Payload.behavior 0x8098 2 3 0) h1
  exact ⟨h1, h2, h3⟩

/-- C1: for each of the three attachment shapes, delivering exactly one
attach then exactly one detach initialization command through the
corresponding trampoline yields exactly the hook trace `attached` then
`detached` and exactly one reclamation-and-deallocation of the boxed
context, and no event whatsoever can be delivered to the handler after its
detach has been processed (any further delivery is a use-after-free,
`none` in the model). -/
theorem attach_detach_exactly_once :
    ∀ (h : Handler) (hroot he : Ptr),
      runProc (windowProcStep h hroot)
          [(HANDLE_INITIALIZATION, Payload.init BEHAVIOR_ATTACH),
           (HANDLE_INITIALIZATION, Payload.init BEHAVIOR_DETACH)] true =
        some ([HookCall.attached hroot, HookCall.detached hroot], 1) ∧
      runProc (elementProcStep h he)
          [(HANDLE_INITIALIZATION, Payload.init BEHAVIOR_ATTACH),
           (HANDLE_INITIALIZATION, Payload.init BEHAVIOR_DETACH)] true =
        some ([HookCall.attached he, HookCall.detached he], 1) ∧
      runProc (behaviorProcStep h he)
          [(HANDLE_INITIALIZATION, Payload.init BEHAVIOR_ATTACH),
           (HANDLE_INITIALIZATION, Payload.init BEHAVIOR_DETACH)] true =
        some ([HookCall.attached he, HookCall.detached he], 1) ∧
      (∀ evtg p,
        runProc (windowProcStep h hroot)
            [(HANDLE_INITIALIZATION, Payload.init BEHAVIOR_ATTACH),
             (HANDLE_INITIALIZATION, Payload.init BEHAVIOR_DETACH),
             (evtg, p)] true = none) ∧
      (∀ evtg p,
        runProc (elementProcStep h he)
            [(HANDLE_INITIALIZATION, Payload.init BEHAVIOR_ATTACH),
             (HANDLE_INITIALIZATION, Payload.init BEHAVIOR_DETACH),
             (evtg, p)] true = none) ∧
      (∀ evtg p,
        runProc (behaviorProcStep h he)
            [(HANDLE_INITIALIZATION, Payload.init BEHAVIOR_ATTACH),
             (HANDLE_INITIALIZATION, Payload.init BEHAVIOR_DETACH),
             (evtg, p)] true = none) := by
  intro h hroot he
  refine ⟨rfl, rfl, rfl, ?_, ?_, ?_⟩ <;> (intro evtg p; rfl)

/-- C6: when the host's `on_attach_behavior` override declines, the
registry is scanned linearly and the first entry (in registration order)
whose name equals the requested name wins: a hit runs that entry's
factory to produce a fresh boxed handler and reports success; a miss
reports failure as a normal outcome, not an error.  In particular, after
registering A then B under the same name, a lookup returns the handler
produced by A's factory. -/
theorem behavior_lookup_first_registered_wins :
    (∀ (pre post : List (String × Factory)) (name : String) (b : HandlerBox),
        (∀ e ∈ pre, e.1 ≠ name) →
        attach_behavior_result false
            ⟨pre ++ (name, Factory.pure b) :: post, BorrowFlag.free⟩ name =
          Except.ok (true, some b,
            ⟨pre ++ (name, Factory.pure b) :: post, BorrowFlag.free⟩)) ∧
    (∀ (l : List (String × Factory)) (name : String),
        (∀ e ∈ l, e.1 ≠ name) →
        attach_behavior_result false ⟨l, BorrowFlag.free⟩ name =
          Except.ok (false, none, ⟨l, BorrowFlag.free⟩)) ∧
    (∀ (l : List (String × Factory)) (name : String) (a b : HandlerBox),
        (∀ e ∈ l, e.1 ≠ name) →
        ∀ r1 r2,
          register_behavior ⟨l, BorrowFlag.free⟩ name (Factory.pure a) =
            Except.ok r1 →
          register_behavior r1 name (Factory.pure b) = Except.ok r2 →
          attach_behavior_result false r2 name = Except.ok (true, some a, r2)) := by
  have hfind : ∀ (pre post : List (String × Factory)) (name : String) (f : Factory),
      (∀ e ∈ pre, e.1 ≠ name) →
      (pre ++ (name, f) :: post).find? (fun x => x.1 = name) = some (name, f) := by
    intro pre post name f hpre
    induction pre with
    | nil => simp [List.find?_cons]
    | cons e rest ih =>
        have he : e.1 ≠ name := hpre e (List.mem_cons_self e rest)
        have hrest : ∀ x ∈ rest, x.1 ≠ name := fun x hx =>
          hpre x (List.mem_cons_of_mem e hx)
        simp [List.find?_cons, he, ih hrest]
  refine ⟨?_, ?_, ?_⟩
  · intro pre post name b hpre
    simp [attach_behavior_result, find_behavior, Registry.borrow,
          hfind pre post name (Factory.pure b) hpre, runFactory,
          Registry.releaseShared]
  · intro l name hl
    have : l.find? (fun x => x.1 = name) = none := by
      rw [List.find?_eq_none]
      intro x hx
      simpa using hl x hx
    simp [attach_behavior_result, find_behavior, Registry.borrow, this,
          Registry.releaseShared]
  · intro l name a b hl r1 r2 h1 h2
    simp [register_behavior, Registry.borrow_mut] at h1 h2
    subst h1
    simp at h2
    subst h2
    have hf := hfind l [(name, Factory.pure b)] name (Factory.pure a) hl
    simp only [List.cons_append, List.nil_append] at hf ⊢
    simp [attach_behavior_result, find_behavior, Registry.borrow, hf,
          runFactory, Registry.releaseShared]

/-- Witness for C6: duplicate registrations of `"custom"` with factories
producing boxes `10` then `20` — the lookup returns `10`; a lookup for an
unregistered name reports `false` as a normal outcome. -/
theorem behavior_lookup_first_registered_wins_witness :
    attach_behavior_result false
        ⟨[("other", Factory.pure 1), ("custom", Factory.pure 10),
          ("custom", Factory.pure 20)], BorrowFlag.free⟩ "custom" =
      Except.ok (true, some 10,
        ⟨[("other", Factory.pure 1), ("custom", Factory.pure 10),
          ("custom", Factory.pure 20)], BorrowFlag.free⟩) ∧
    attach_behavior_result false
        ⟨[("other", Factory.pure 1)], BorrowFlag.free⟩ "custom" =
      Except.ok (false, none, ⟨[("other", Factory.pure 1)], BorrowFlag.free⟩) := by
  constructor
  · have h := behavior_lookup_first_registered_wins.1
        [("other", Factory.pure 1)] [("custom", Factory.pure 20)] "custom" 10
        (by decide)
    simpa using h
  · exact behavior_lookup_first_registered_wins.2.1
        [("other", Factory.pure 1)] "custom" (by decide)

/-- Counterexample to C3: one registered behavior `"x"` whose factory
re-enters `Host::register_behavior` — the lookup invokes the factory
while the shared `RefCell`'s borrow guard is still alive, so the
re-entrant `borrow_mut` panics with `BorrowMutError` instead of
completing. -/
theorem reentrant_registration_panics_counterexample :
    attach_behavior_result false
        ⟨[("x", Factory.registersThen "y" (Factory.pure 7) 5)], BorrowFlag.free⟩
        "x" =
      Except.error CellPanic.borrowMutError := by rfl

/-- C3 (amended): re-entrant registration during dispatch is NOT safe —
`Host::register_behavior` panics (`RefCell` `BorrowMutError`) whenever the
registry cell has any outstanding borrow, and in particular a behavior-name
lookup whose first matching entry's factory re-enters
`Host::register_behavior` panics instead of completing, because the lookup
holds the cell's shared borrow while the factory runs. -/
theorem reentrant_registration_panics :
    (∀ (r : Registry) (name : String) (f : Factory),
        r.flag ≠ BorrowFlag.free →
        register_behavior r name f = Except.error CellPanic.borrowMutError) ∧
    (∀ (pre post : List (String × Factory)) (name nm : String)
        (sub : Factory) (b : HandlerBox),
        (∀ e ∈ pre, e.1 ≠ name) →
        attach_behavior_result false
            ⟨pre ++ (name, Factory.registersThen nm sub b) :: post,
             BorrowFlag.free⟩ name =
          Except.error CellPanic.borrowMutError) := by
  constructor
  · intro r name f hr
    cases hflag : r.flag with
    | free => exact absurd hflag hr
    | shared n => simp [register_behavior, Registry.borrow_mut, hflag]
    | exclusive => simp [register_behavior, Registry.borrow_mut, hflag]
  · intro pre post name nm sub b hpre
    have hfind : (pre ++ (name, Factory.registersThen nm sub b) :: post).find?
        (fun x => x.1 = name) = some (name, Factory.registersThen nm sub b) := by
      induction pre with
      | nil => simp [List.find?_cons]
      | cons e rest ih =>
          have he : e.1 ≠ name := hpre e (List.mem_cons_self e rest)
          have hrest : ∀ x ∈ rest, x.1 ≠ name := fun x hx =>
            hpre x (List.mem_cons_of_mem e hx)
          simp [List.find?_cons, he, ih hrest]
    simp [attach_behavior_result, find_behavior, Registry.borrow, hfind,
          runFactory, register_behavior, Registry.borrow_mut]

/-- Witness for the amended C3: the concrete single-entry registry from the
counterexample, derived from the general statement; and `register_behavior`
on a shared-borrowed cell at concrete inputs. -/
theorem reentrant_registration_panics_witness :
    register_behavior ⟨[], BorrowFlag.shared 1⟩ "z" (Factory.pure 3) =
      Except.error CellPanic.borrowMutError ∧
    attach_behavior_result false
        ⟨[("x", Factory.registersThen "y" (Factory.pure 7) 5)], BorrowFlag.free⟩
        "x" =
      Except.error CellPanic.borrowMutError := by
  constructor
  · exact reentrant_registration_panics.1 ⟨[], BorrowFlag.shared 1⟩ "z"
      (Factory.pure 3) (by decide)
  · have h := reentrant_registration_panics.2 [] [] "x" "y" (Factory.pure 7) 5
      (by decide)
    simpa using h

end Sciter
